import Mathlib

/-!
Shallow embedding of the admin-panel automation frontend
(`adminpanel/static/admin` JavaScript) of the repository.

The embedded functions mirror, item by item, the JavaScript source:
`scheduleRandomActivity`, `updateSessionSelects`,
`updateRecentActivitiesTable`, `retryActivity`, `cancelActivity`,
`updateStatsCards`, `submitActivity`, `getStatusBadge`,
`getActivityTypeLabel`, `startAutoRefresh` / `stopAutoRefresh`, and
`validateUsername`.  DOM writes are modelled as returned values
(lists of rendered rows / options / element updates), `fetch` POSTs as
returned `Request` values, and `Math.random` as an explicitly passed
natural number.  JavaScript numbers that the claims use only integrally
are modelled as `Int`; `null`/missing values as `Option`.
-/

/-- A JSON value, as built by the frontend before `JSON.stringify`. -/
inductive Json where
  | null : Json
  | str (s : String) : Json
  | num (n : Int) : Json
  | obj (fields : List (String × Json)) : Json
  deriving Repr

/-- An HTTP request issued via `fetch`: method, URL and (optional) JSON body. -/
structure Request where
  method : String
  url : String
  body : Option Json
  deriving Repr

/-- A `POST` with a JSON body, as every mutating call in the source issues. -/
def postJson (url : String) (body : Json) : Request :=
  { method := "POST", url := url, body := some body }

/-- A session record as served by `/api/automation/sessions` and stored in
`automationData.sessions`: the fields the frontend reads are `user`,
`status` and `success_rate`. -/
structure Session where
  user : String
  status : String
  success_rate : Int
  deriving Repr, DecidableEq

instance : Inhabited Session := ⟨⟨"", "", 0⟩⟩

/-- One `<option>` element of a session select. -/
structure SelectOption where
  value : String
  label : String
  deriving Repr, DecidableEq

/-- The fixed first option `<option value="">Kullanıcı seçiniz...</option>`
written by `updateSessionSelects` before the session options. -/
def placeholderOption : SelectOption :=
  { value := "", label := "Kullanıcı seçiniz..." }

/-- The option appended for one session:
`option.value = session.user`,
`option.textContent = ` the user followed by its success rate. -/
def sessionOption (s : Session) : SelectOption :=
  { value := s.user
    label := s.user ++ " (" ++ toString s.success_rate ++ "% başarı)" }

/-- `updateSessionSelects` (source lines 159-174): each
`select[name="session_user"]` is reset to the placeholder option and then,
for each session whose `status === 'active'`, an option for that session is
appended.  The resulting option list of one select is returned. -/
def updateSessionSelects (sessions : List Session) : List SelectOption :=
  placeholderOption ::
    (sessions.filter (fun s => s.status == "active")).map sessionOption

/-- Outcome of `scheduleRandomActivity`: either the warning notification
`'Aktif session bulunamadı'` with an early return (no fetch), or the POST
request that is issued. -/
inductive SchedRandomOutcome where
  | noneAvailable : SchedRandomOutcome
  | request (r : Request) : SchedRandomOutcome
  deriving Repr

/-- `scheduleRandomActivity` (source lines 292-322): filter
`automationData.sessions` to those with `status === 'active'`; if none,
show the warning and return; otherwise pick
`availableUsers[Math.floor(Math.random() * availableUsers.length)]` and
POST `{session_user: randomUser.user}` to `/api/automation/schedule-random`.
`Math.floor(Math.random() * n)` is a natural number `< n`; it is modelled
by `rand % n` for an arbitrary `rand : Nat`. -/
def scheduleRandomActivity (sessions : List Session) (rand : Nat) :
    SchedRandomOutcome :=
  let availableUsers := sessions.filter (fun s => s.status == "active")
  if availableUsers.length = 0 then
    .noneAvailable
  else
    let randomUser := availableUsers.getD (rand % availableUsers.length) default
    .request (postJson "/srdr-proadmin/api/automation/schedule-random"
      (Json.obj [("session_user", Json.str randomUser.user)]))

/-- An activity record as served by `/api/automation/activities`; the fields
read by `updateRecentActivitiesTable`.  `target` is `none` when the JSON
field is `null` or missing. -/
structure Activity where
  id : String
  session_user : String
  activity_type : String
  target : Option String
  status : String
  created_at : Int
  deriving Repr, DecidableEq

/-- `getStatusBadge` (source lines 503-512) restricted to own-key lookup
in the `badges` object with the `'Bilinmiyor'` fallback; adequate where
the table rows use it.  The full JavaScript lookup, which also finds
members inherited from `Object.prototype`, is `getStatusBadgeJS` below. -/
def getStatusBadge (status : String) : String :=
  if status == "pending" then "<span class=\"badge bg-warning\">Bekleyen</span>"
  else if status == "running" then "<span class=\"badge bg-info\">Çalışan</span>"
  else if status == "completed" then "<span class=\"badge bg-success\">Tamamlanan</span>"
  else if status == "failed" then "<span class=\"badge bg-danger\">Başarısız</span>"
  else if status == "cancelled" then "<span class=\"badge bg-secondary\">İptal</span>"
  else "<span class=\"badge bg-light\">Bilinmiyor</span>"

/-- `getActivityTypeLabel` (source lines 514-525): lookup in the `labels`
object, falling back to the type itself. -/
def getActivityTypeLabel (type : String) : String :=
  if type == "like" then "Beğeni"
  else if type == "follow" then "Takip"
  else if type == "comment" then "Yorum"
  else if type == "story_view" then "Story İzle"
  else if type == "profile_visit" then "Profil Ziyaret"
  else if type == "explore_browse" then "Keşfet Gezin"
  else if type == "session_keepalive" then "Keep-Alive"
  else type

/-- One rendered `<tr>` of the recent-activities table.  The action buttons
are modelled by the activity id each button's `onclick` carries:
`retryOnclickId` is `some id` exactly when the retry button markup is
emitted, likewise `cancelOnclickId` for the cancel button. -/
structure ActivityRow where
  dateMillis : Int
  sessionUser : String
  typeLabel : String
  targetText : String
  statusBadge : String
  detailsOnclickId : String
  retryOnclickId : Option String
  cancelOnclickId : Option String
  deriving Repr, DecidableEq

/-- The `<tr>` built for one activity by the `map` body of
`updateRecentActivitiesTable` (source lines 185-217):
`new Date(activity.created_at * 1000)`, the session user, the type label
badge, `activity.target || '-'`, the status badge, always a details
button, a retry button only when `activity.status === 'failed'`, and a
cancel button only when `activity.status === 'pending'`. -/
def renderActivityRow (a : Activity) : ActivityRow :=
  { dateMillis := a.created_at * 1000
    sessionUser := a.session_user
    typeLabel := getActivityTypeLabel a.activity_type
    targetText := match a.target with
      | none => "-"
      | some t => if t == "" then "-" else t
    statusBadge := getStatusBadge a.status
    detailsOnclickId := a.id
    retryOnclickId := if a.status == "failed" then some a.id else none
    cancelOnclickId := if a.status == "pending" then some a.id else none }

/-- Contents written into the recent-activities `<tbody>`: either the
single `'Henüz aktivite yok'` placeholder row, or one rendered row per
listed activity. -/
inductive TableContent where
  | emptyMessage : TableContent
  | rows (rs : List ActivityRow) : TableContent
  deriving Repr, DecidableEq

/-- `updateRecentActivitiesTable` (source lines 176-218): with no
activities the placeholder row is written; otherwise
`activities.slice(0, 10)` is mapped to rendered rows. -/
def updateRecentActivitiesTable (activities : List Activity) : TableContent :=
  if activities.length = 0 then
    .emptyMessage
  else
    .rows ((activities.take 10).map renderActivityRow)

/-- `retryActivity(activityId)` (source lines 447-469): unconditionally
POSTs `{activity_id: activityId}` to `/api/automation/retry-activity`. -/
def retryActivity (activityId : String) : Request :=
  postJson "/srdr-proadmin/api/automation/retry-activity"
    (Json.obj [("activity_id", Json.str activityId)])

/-- `cancelActivity(activityId)` (source lines 471-497): first a
`confirm(...)` dialog; on refusal it returns without a request, otherwise
it POSTs `{activity_id: activityId}` to `/api/automation/cancel-activity`.
The dialog's answer is the `confirmed` argument. -/
def cancelActivity (confirmed : Bool) (activityId : String) : Option Request :=
  if !confirmed then
    none
  else
    some (postJson "/srdr-proadmin/api/automation/cancel-activity"
      (Json.obj [("activity_id", Json.str activityId)]))

/-- The `session_stats` object of the status payload; `active` is `none`
when the field is missing (JS `undefined`). -/
structure SessionStats where
  active : Option Int
  deriving Repr, DecidableEq

/-- The `activity_stats` object of the status payload. -/
structure ActivityStats where
  pending : Option Int
  completed : Option Int
  success_rate : Option Int
  deriving Repr, DecidableEq

/-- The `/api/automation/status` payload fields read by
`updateStatsCards`. -/
structure StatusPayload where
  session_stats : SessionStats
  activity_stats : ActivityStats
  deriving Repr, DecidableEq

/-- JavaScript `x || 0` on a possibly-missing number: `undefined` and `0`
are falsy and give `0`; any other integer is truthy and is kept. -/
def jsNumOrZero (x : Option Int) : Int :=
  match x with
  | none => 0
  | some v => if v = 0 then 0 else v

/-- `updateStatsCards` (source lines 139-150): with no loaded status it
returns without touching the DOM; otherwise it writes the four stat
cards, each value guarded by `|| 0`, the success rate suffixed with
`%`.  The result is the list of `(elementId, text)` writes. -/
def updateStatsCards (status : Option StatusPayload) : List (String × String) :=
  match status with
  | none => []
  | some st =>
    [("active-sessions", toString (jsNumOrZero st.session_stats.active)),
     ("pending-activities", toString (jsNumOrZero st.activity_stats.pending)),
     ("completed-today", toString (jsNumOrZero st.activity_stats.completed)),
     ("success-rate", toString (jsNumOrZero st.activity_stats.success_rate) ++ "%")]

/-- The activity form fields as `FormData.get` returns them: `none` for a
missing control (JS `null`), otherwise the string value. -/
structure ActivityForm where
  activity_type : Option String
  session_user : Option String
  target : Option String
  delay_seconds : Option String
  count : Option String
  deriving Repr, DecidableEq

/-- JavaScript string falsiness: `null` and `''` are falsy. -/
def jsStrFalsy (x : Option String) : Bool :=
  match x with
  | none => true
  | some s => s == ""

/-- JavaScript `x || null` on a form value: a falsy value becomes `null`. -/
def jsStrOrNull (x : Option String) : Option String :=
  if jsStrFalsy x then none else x

/-- `parseInt` on a `FormData.get` result, decimal case: skip leading
whitespace, read an optional sign, then a maximal run of decimal digits;
no digits means `NaN`, modelled as `none`.  `parseInt(null)` coerces
`null` to the string `"null"` and yields `NaN`. -/
def parseIntJS (x : Option String) : Option Int :=
  match x with
  | none => none
  | some s =>
    let cs := s.toList.dropWhile (fun c => c == ' ' || c == '\t' || c == '\n' || c == '\r')
    let (neg, ds) :=
      match cs with
      | '-' :: rest => (true, rest)
      | '+' :: rest => (false, rest)
      | rest => (false, rest)
    let digits := ds.takeWhile Char.isDigit
    if digits.length = 0 then
      none
    else
      let n := digits.foldl (fun acc c => acc * 10 + (c.toNat - '0'.toNat)) 0
      some (if neg then -(n : Int) else (n : Int))

/-- JavaScript `x || d` after `parseInt`: `NaN` and `0` are falsy and give
the default. -/
def jsNumOrDefault (x : Option Int) (d : Int) : Int :=
  match x with
  | none => d
  | some v => if v = 0 then d else v

/-- The request body assembled by `submitActivity`. -/
structure ScheduleActivityBody where
  activity_type : Option String
  session_user : Option String
  target : Option String
  delay_seconds : Int
  metadata_count : Int
  deriving Repr, DecidableEq

/-- Outcome of `submitActivity`: the validation warning
`'Aktivite türü ve kullanıcı seçmelisiniz'` with an early return (no
fetch), or the POST to `/api/automation/schedule-activity`. -/
inductive SubmitOutcome where
  | validationWarning : SubmitOutcome
  | request (body : ScheduleActivityBody) : SubmitOutcome
  deriving Repr, DecidableEq

/-- `submitActivity` (source lines 343-382): build `activityData` from the
form (`target: formData.get('target') || null`,
`delay_seconds: parseInt(...) || 0`, `metadata: {count: parseInt(...) || 1}`),
then reject with the warning if `activity_type` or `session_user` is
falsy, else POST the data. -/
def submitActivity (form : ActivityForm) : SubmitOutcome :=
  let activityData : ScheduleActivityBody :=
    { activity_type := form.activity_type
      session_user := form.session_user
      target := jsStrOrNull form.target
      delay_seconds := jsNumOrDefault (parseIntJS form.delay_seconds) 0
      metadata_count := jsNumOrDefault (parseIntJS form.count) 1 }
  if jsStrFalsy form.activity_type || jsStrFalsy form.session_user then
    .validationWarning
  else
    .request activityData

/-- The browser timer state as the page manipulates it: the
`refreshInterval` global (an interval id or `null`) together with the set
of interval ids currently live in the browser, and a counter supplying
fresh ids for `setInterval`. -/
structure TimerState where
  refreshInterval : Option Nat
  live : List Nat
  nextId : Nat
  deriving Repr, DecidableEq

/-- Page-load state: `let refreshInterval = null`, no live timers. -/
def initialTimerState : TimerState :=
  { refreshInterval := none, live := [], nextId := 0 }

/-- Browser `setInterval`: registers a fresh live timer, returning its id. -/
def setIntervalFresh (st : TimerState) : TimerState × Nat :=
  ({ st with live := st.nextId :: st.live, nextId := st.nextId + 1 }, st.nextId)

/-- Browser `clearInterval(id)`: the timer with that id stops being live. -/
def clearIntervalId (st : TimerState) (id : Nat) : TimerState :=
  { st with live := st.live.filter (fun i => i ≠ id) }

/-- `stopAutoRefresh` (source lines 535-540, also run by the
`beforeunload` handler at lines 587-589): if `refreshInterval` is set,
`clearInterval` it and null the global. -/
def stopAutoRefresh (st : TimerState) : TimerState :=
  match st.refreshInterval with
  | none => st
  | some id => { clearIntervalId st id with refreshInterval := none }

/-- `startAutoRefresh` (source lines 527-533): first `stopAutoRefresh()`,
then `refreshInterval = setInterval(...)`. -/
def startAutoRefresh (st : TimerState) : TimerState :=
  let st := stopAutoRefresh st
  let p := setIntervalFresh st
  { p.1 with refreshInterval := some p.2 }

/-- One call of the auto-refresh API. -/
inductive TimerOp where
  | start : TimerOp
  | stop : TimerOp
  deriving Repr, DecidableEq

/-- Run one auto-refresh call against the timer state. -/
def stepTimer (st : TimerState) (op : TimerOp) : TimerState :=
  match op with
  | .start => startAutoRefresh st
  | .stop => stopAutoRefresh st

/-- Run a sequence of `startAutoRefresh`/`stopAutoRefresh` calls from page
load. -/
def runTimerOps (ops : List TimerOp) : TimerState :=
  ops.foldl stepTimer initialTimerState

/-- The JavaScript whitespace characters stripped by `String.prototype.trim`:
the WhiteSpace and LineTerminator productions (tab, LF, VT, FF, CR, space,
NBSP, BOM, the Unicode space separators, LS, PS). -/
def jsWhitespaceChar (c : Char) : Bool :=
  c == ' ' || c == '\t' || c == '\n' || c == '\r' ||
  c == '\x0b' || c == '\x0c' || c == '\u00A0' || c == '\uFEFF' ||
  c == '\u1680' || ('\u2000' ≤ c && c ≤ '\u200A') ||
  c == '\u2028' || c == '\u2029' || c == '\u202F' || c == '\u205F' ||
  c == '\u3000'

/-- JavaScript `s.trim()`: strip leading and trailing whitespace. -/
def jsTrim (s : String) : String :=
  String.mk (((s.toList.dropWhile jsWhitespaceChar).reverse.dropWhile
    jsWhitespaceChar).reverse)

/-- JavaScript `s.replace('@', '')` with a string pattern: remove only the
first occurrence of `'@'`. -/
def removeFirstAtSign : List Char → List Char
  | [] => []
  | c :: cs => if c == '@' then cs else c :: removeFirstAtSign cs

/-- One character of the regex class `[a-zA-Z0-9_.]`. -/
def usernameChar (c : Char) : Bool :=
  ('a' ≤ c && c ≤ 'z') || ('A' ≤ c && c ≤ 'Z') ||
  ('0' ≤ c && c ≤ '9') || c == '_' || c == '.'

/-- `validateUsername` (activity.js lines 123-126):
`clean = username.trim().replace('@', '')`, then
`/^[a-zA-Z0-9_.]+$/.test(clean) && clean.length > 0 && clean.length <= 30`.
The regex (anchored, no `m` flag) holds iff `clean` is a non-empty string
of class characters. -/
def validateUsername (username : String) : Bool :=
  let clean := removeFirstAtSign (jsTrim username).toList
  (clean.all usernameChar && clean.length > 0) &&
    clean.length > 0 && clean.length ≤ 30

/-- C1: when no session has status `'active'`, `scheduleRandomActivity`
issues no schedule-random POST and only reports that no eligible session
exists (the early-return warning branch). -/
theorem scheduleRandomActivity_no_active_no_request
    (sessions : List Session) (rand : Nat)
    (h : ∀ s ∈ sessions, s.status ≠ "active") :
    scheduleRandomActivity sessions rand = .noneAvailable := by
  have hf : sessions.filter (fun s => s.status == "active") = [] := by
    rw [List.filter_eq_nil_iff]
    intro s hs
    simpa using h s hs
  simp [scheduleRandomActivity, hf]

/-- Witness for C1: a concrete sessions list with a blocked and an invalid
session satisfies the hypothesis, and the call enqueues nothing. -/
theorem scheduleRandomActivity_no_active_no_request_witness :
    scheduleRandomActivity
      [⟨"alice", "blocked", 40⟩, ⟨"bob", "invalid", 0⟩] 7 = .noneAvailable :=
  scheduleRandomActivity_no_active_no_request _ 7 (by decide)

/-- C2: the session select offers exactly the sessions whose status is
`'active'` (beyond the fixed placeholder), and a schedule-random request
always carries the user of some session with status `'active'` from the
list. -/
theorem sessionSelection_only_active (sessions : List Session) :
    (∀ o ∈ updateSessionSelects sessions,
        o = placeholderOption ∨
          ∃ s ∈ sessions, s.status = "active" ∧ o = sessionOption s) ∧
    (∀ s ∈ sessions, s.status = "active" →
        sessionOption s ∈ updateSessionSelects sessions) ∧
    (∀ rand r, scheduleRandomActivity sessions rand = .request r →
        ∃ s ∈ sessions, s.status = "active" ∧
          r = postJson "/srdr-proadmin/api/automation/schedule-random"
                (Json.obj [("session_user", Json.str s.user)])) := by
  refine ⟨?_, ?_, ?_⟩
  · intro o ho
    rcases List.mem_cons.mp ho with rfl | ho
    · exact Or.inl rfl
    · rcases List.mem_map.mp ho with ⟨s, hs, rfl⟩
      rcases List.mem_filter.mp hs with ⟨hmem, hact⟩
      exact Or.inr ⟨s, hmem, by simpa using hact, rfl⟩
  · intro s hs hact
    refine List.mem_cons_of_mem _ (List.mem_map_of_mem _ ?_)
    exact List.mem_filter.mpr ⟨hs, by simpa using hact⟩
  · intro rand r hr
    unfold scheduleRandomActivity at hr
    set availableUsers := sessions.filter (fun s => s.status == "active") with hav
    by_cases hlen : availableUsers.length = 0
    · simp [hlen] at hr
    · simp only [hlen, if_false] at hr
      have hpos : 0 < availableUsers.length := Nat.pos_of_ne_zero hlen
      have hidx : rand % availableUsers.length < availableUsers.length :=
        Nat.mod_lt _ hpos
      set u := availableUsers.getD (rand % availableUsers.length) default with hu
      have humem : u ∈ availableUsers := by
        rw [hu, List.getD_eq_getElem availableUsers default hidx]
        exact List.getElem_mem hidx
      rcases List.mem_filter.mp humem with ⟨hmem, hact⟩
      simp only [SchedRandomOutcome.request.injEq] at hr
      exact ⟨u, hmem, by simpa using hact, hr.symm⟩

/-- Witness for C2: on a concrete list, the active session's option is in
the select. -/
theorem sessionSelection_only_active_witness :
    sessionOption ⟨"alice", "active", 80⟩ ∈
      updateSessionSelects [⟨"alice", "active", 80⟩, ⟨"bob", "blocked", 5⟩] :=
  (sessionSelection_only_active _).2.1 ⟨"alice", "active", 80⟩
    (by decide) (by decide)

/-- C3: every rendered row carries the cancel action exactly when its
activity's status is `'pending'`, and then for that activity's id; a
confirmed `cancelActivity(id)` POSTs a cancellation of exactly `id` (and
an unconfirmed one sends nothing). -/
theorem cancel_only_pending (activities : List Activity) :
    (∀ rs, updateRecentActivitiesTable activities = .rows rs →
        ∀ row ∈ rs, ∃ a ∈ activities, row = renderActivityRow a ∧
          row.cancelOnclickId =
            (if a.status = "pending" then some a.id else none)) ∧
    (∀ id : String,
        cancelActivity true id =
          some (postJson "/srdr-proadmin/api/automation/cancel-activity"
            (Json.obj [("activity_id", Json.str id)])) ∧
        cancelActivity false id = none) := by
  constructor
  · intro rs hrs row hrow
    unfold updateRecentActivitiesTable at hrs
    by_cases hlen : activities.length = 0
    · simp [hlen] at hrs
    · simp only [hlen, if_false, TableContent.rows.injEq] at hrs
      subst hrs
      rcases List.mem_map.mp hrow with ⟨a, ha, rfl⟩
      refine ⟨a, List.mem_of_mem_take ha, rfl, ?_⟩
      simp [renderActivityRow]
  · intro id
    exact ⟨rfl, rfl⟩

/-- A concrete pending activity, input of the C3 witness. -/
def samplePendingActivity : Activity :=
  { id := "a1", session_user := "alice", activity_type := "like",
    target := none, status := "pending", created_at := 100 }

/-- Witness for C3: on a concrete activity list, the pending activity's
row offers cancellation of its id. -/
theorem cancel_only_pending_witness :
    ∃ a ∈ [samplePendingActivity],
      renderActivityRow samplePendingActivity = renderActivityRow a ∧
        (renderActivityRow samplePendingActivity).cancelOnclickId =
          (if a.status = "pending" then some a.id else none) :=
  (cancel_only_pending [samplePendingActivity]).1
    [renderActivityRow samplePendingActivity] rfl
    (renderActivityRow samplePendingActivity) (List.mem_singleton_self _)

/-- C4: every rendered row carries the retry action exactly when its
activity's status is `'failed'`, and then for that activity's id;
`retryActivity(id)` POSTs a retry of exactly `id`. -/
theorem retry_only_failed (activities : List Activity) :
    (∀ rs, updateRecentActivitiesTable activities = .rows rs →
        ∀ row ∈ rs, ∃ a ∈ activities, row = renderActivityRow a ∧
          row.retryOnclickId =
            (if a.status = "failed" then some a.id else none)) ∧
    (∀ id : String,
        retryActivity id =
          postJson "/srdr-proadmin/api/automation/retry-activity"
            (Json.obj [("activity_id", Json.str id)])) := by
  constructor
  · intro rs hrs row hrow
    unfold updateRecentActivitiesTable at hrs
    by_cases hlen : activities.length = 0
    · simp [hlen] at hrs
    · simp only [hlen, if_false, TableContent.rows.injEq] at hrs
      subst hrs
      rcases List.mem_map.mp hrow with ⟨a, ha, rfl⟩
      refine ⟨a, List.mem_of_mem_take ha, rfl, ?_⟩
      simp [renderActivityRow]
  · intro id
    rfl

/-- A concrete failed activity, input of the C4 witness. -/
def sampleFailedActivity : Activity :=
  { id := "a2", session_user := "bob", activity_type := "follow",
    target := some "t", status := "failed", created_at := 200 }

/-- Witness for C4: on a concrete activity list, the failed activity's row
offers retry of its id. -/
theorem retry_only_failed_witness :
    ∃ a ∈ [sampleFailedActivity],
      renderActivityRow sampleFailedActivity = renderActivityRow a ∧
        (renderActivityRow sampleFailedActivity).retryOnclickId =
          (if a.status = "failed" then some a.id else none) :=
  (retry_only_failed [sampleFailedActivity]).1
    [renderActivityRow sampleFailedActivity] rfl
    (renderActivityRow sampleFailedActivity) (List.mem_singleton_self _)

/-- C6: whenever the reported `success_rate` is absent or zero,
`updateStatsCards` writes the success-rate card as `0%`, and that is the
only text it writes to the card — the display is never undefined or
missing. -/
theorem successRate_defined_zero (st : StatusPayload)
    (h : st.activity_stats.success_rate = none ∨
         st.activity_stats.success_rate = some 0) :
    ("success-rate", "0%") ∈ updateStatsCards (some st) ∧
    ∀ p ∈ updateStatsCards (some st), p.1 = "success-rate" → p.2 = "0%" := by
  have hz : jsNumOrZero st.activity_stats.success_rate = 0 := by
    rcases h with h | h <;> simp [jsNumOrZero, h]
  have h0 : toString (0 : Int) ++ "%" = "0%" := rfl
  constructor
  · simp [updateStatsCards, hz, h0]
  · intro p hp hname
    simp only [updateStatsCards, List.mem_cons, List.not_mem_nil, or_false] at hp
    rcases hp with rfl | rfl | rfl | rfl
    · simp at hname
    · simp at hname
    · simp at hname
    · show toString (jsNumOrZero st.activity_stats.success_rate) ++ "%" = "0%"
      rw [hz, h0]

/-- Witness for C6: a concrete payload with `success_rate` missing renders
the card as `0%`. -/
theorem successRate_defined_zero_witness :
    ("success-rate", "0%") ∈
      updateStatsCards (some
        { session_stats := { active := some 3 }
          activity_stats :=
            { pending := some 2, completed := some 5, success_rate := none } }) :=
  (successRate_defined_zero _ (Or.inl rfl)).1

/-- C7: with a falsy `activity_type` or `session_user` the submit is
rejected before any request is built into a fetch; with both present the
issued request carries the chosen type and session, with `target`
defaulting to `null`, `delay_seconds` to `0` and `metadata.count` to `1`
when those controls are empty or absent. -/
theorem submitActivity_validates_and_defaults (form : ActivityForm) :
    ((form.activity_type = none ∨ form.activity_type = some "" ∨
      form.session_user = none ∨ form.session_user = some "") →
        submitActivity form = .validationWarning) ∧
    (∀ t u, form.activity_type = some t → t ≠ "" →
        form.session_user = some u → u ≠ "" →
        ∃ body, submitActivity form = .request body ∧
          body.activity_type = some t ∧ body.session_user = some u ∧
          (jsStrFalsy form.target → body.target = none) ∧
          (form.delay_seconds = none → body.delay_seconds = 0) ∧
          (form.count = none → body.metadata_count = 1)) := by
  constructor
  · intro h
    have hfals : (jsStrFalsy form.activity_type ||
        jsStrFalsy form.session_user) = true := by
      rcases h with h | h | h | h <;> simp [jsStrFalsy, h]
    simp [submitActivity, hfals]
  · intro t u ht htne hu hune
    have hfals : (jsStrFalsy form.activity_type ||
        jsStrFalsy form.session_user) = false := by
      simp [jsStrFalsy, ht, hu, htne, hune]
    refine ⟨{ activity_type := form.activity_type
              session_user := form.session_user
              target := jsStrOrNull form.target
              delay_seconds := jsNumOrDefault (parseIntJS form.delay_seconds) 0
              metadata_count := jsNumOrDefault (parseIntJS form.count) 1 },
            by simp [submitActivity, hfals], ht, hu, ?_, ?_, ?_⟩
    · intro hta
      simp [jsStrOrNull, hta]
    · intro hds
      simp [hds, parseIntJS, jsNumOrDefault]
    · intro hc
      simp [hc, parseIntJS, jsNumOrDefault]

/-- Witness for C7: a concrete form with type and user chosen and the
optional controls absent yields the request with the documented
defaults. -/
theorem submitActivity_validates_and_defaults_witness :
    ∃ body,
      submitActivity
        { activity_type := some "like", session_user := some "alice",
          target := none, delay_seconds := none, count := none } =
        .request body ∧
      body.activity_type = some "like" ∧ body.session_user = some "alice" ∧
      (jsStrFalsy (none : Option String) → body.target = none) ∧
      ((none : Option String) = none → body.delay_seconds = 0) ∧
      ((none : Option String) = none → body.metadata_count = 1) :=
  (submitActivity_validates_and_defaults
    { activity_type := some "like", session_user := some "alice",
      target := none, delay_seconds := none, count := none }).2
    "like" "alice" rfl (by decide) rfl (by decide)

/-- The five statuses of the spec's activity-status enum. -/
def statusEnum : List String :=
  ["pending", "running", "completed", "failed", "cancelled"]

/-- The property keys every object literal inherits from
`Object.prototype` (including the `__proto__` accessor).  Their values —
built-in functions, and the prototype object itself for `__proto__` — are
all truthy and none is a badge string. -/
def objectPrototypeKeys : List String :=
  ["constructor", "hasOwnProperty", "isPrototypeOf", "propertyIsEnumerable",
   "toLocaleString", "toString", "valueOf", "__proto__",
   "__defineGetter__", "__defineSetter__", "__lookupGetter__",
   "__lookupSetter__"]

/-- The value the source `getStatusBadge` returns: a badge HTML string, or
the truthy member inherited from `Object.prototype` that
`badges[status] || ...` passes through unchanged (a built-in function or
the prototype object, recorded by its key). -/
inductive StatusBadgeResult where
  | html (s : String) : StatusBadgeResult
  | inheritedMember (key : String) : StatusBadgeResult
  deriving Repr, DecidableEq

/-- `getStatusBadge` (source lines 503-512) with JavaScript property-lookup
semantics: `badges[status]` finds an own key first, otherwise a member
inherited from `Object.prototype` — truthy, so `||` returns it as is —
and only when the lookup is `undefined` does the `'Bilinmiyor'` fallback
apply.  `getStatusBadge` above keeps the own-key restriction of the same
lookup, adequate for the row rendering; this definition is the one that
decides fallback behaviour on arbitrary inputs. -/
def getStatusBadgeJS (status : String) : StatusBadgeResult :=
  if status == "pending" then .html "<span class=\"badge bg-warning\">Bekleyen</span>"
  else if status == "running" then .html "<span class=\"badge bg-info\">Çalışan</span>"
  else if status == "completed" then .html "<span class=\"badge bg-success\">Tamamlanan</span>"
  else if status == "failed" then .html "<span class=\"badge bg-danger\">Başarısız</span>"
  else if status == "cancelled" then .html "<span class=\"badge bg-secondary\">İptal</span>"
  else if objectPrototypeKeys.contains status then .inheritedMember status
  else .html "<span class=\"badge bg-light\">Bilinmiyor</span>"

/-- Counterexample for C8 as stated: `'toString'` is none of the five enum
statuses, yet the source does not return the fallback badge for it —
`badges['toString']` finds the inherited `Object.prototype.toString`
function, which is truthy, and `||` passes it through. -/
theorem getStatusBadgeJS_fallback_fails :
    "toString" ∉ statusEnum ∧
      getStatusBadgeJS "toString" ≠
        .html "<span class=\"badge bg-light\">Bilinmiyor</span>" := by
  decide

/-- C8 (amended): `getStatusBadgeJS` maps each of the five enum statuses
to its own badge, the five badges are pairwise distinct, every other
input that is not an `Object.prototype` member key gets the `'Bilinmiyor'`
fallback badge, and an `Object.prototype` member key outside the enum
gets the truthy inherited member instead — the result is total and never
undefined. -/
theorem getStatusBadgeJS_total_exhaustive (s : String) :
    (getStatusBadgeJS "pending" = .html "<span class=\"badge bg-warning\">Bekleyen</span>" ∧
     getStatusBadgeJS "running" = .html "<span class=\"badge bg-info\">Çalışan</span>" ∧
     getStatusBadgeJS "completed" = .html "<span class=\"badge bg-success\">Tamamlanan</span>" ∧
     getStatusBadgeJS "failed" = .html "<span class=\"badge bg-danger\">Başarısız</span>" ∧
     getStatusBadgeJS "cancelled" = .html "<span class=\"badge bg-secondary\">İptal</span>") ∧
    (statusEnum.map getStatusBadgeJS).Nodup ∧
    (s ∉ statusEnum → s ∉ objectPrototypeKeys →
      getStatusBadgeJS s = .html "<span class=\"badge bg-light\">Bilinmiyor</span>") ∧
    (s ∉ statusEnum → s ∈ objectPrototypeKeys →
      getStatusBadgeJS s = .inheritedMember s) := by
  refine ⟨⟨rfl, rfl, rfl, rfl, rfl⟩, by decide, ?_, ?_⟩ <;>
    intro hs hp <;>
    simp only [statusEnum, List.mem_cons, List.not_mem_nil, or_false,
      not_or] at hs <;>
    obtain ⟨h1, h2, h3, h4, h5⟩ := hs
  · simp [getStatusBadgeJS, h1, h2, h3, h4, h5, hp]
  · simp [getStatusBadgeJS, h1, h2, h3, h4, h5, hp]

/-- Witness for C8 (amended): a status outside both the enum and the
prototype keys gets the fallback badge. -/
theorem getStatusBadgeJS_total_exhaustive_witness :
    getStatusBadgeJS "paused" =
      .html "<span class=\"badge bg-light\">Bilinmiyor</span>" :=
  (getStatusBadgeJS_total_exhaustive "paused").2.2.1 (by decide) (by decide)

/-- The timer bookkeeping invariant: the live interval ids are exactly the
content of the `refreshInterval` global. -/
def timerInv (st : TimerState) : Prop :=
  st.live = st.refreshInterval.toList

/-- One `startAutoRefresh`/`stopAutoRefresh` call preserves `timerInv`. -/
theorem timerInv_step (st : TimerState) (op : TimerOp) (h : timerInv st) :
    timerInv (stepTimer st op) := by
  have hstop : timerInv (stopAutoRefresh st) ∧
      (stopAutoRefresh st).refreshInterval = none := by
    unfold timerInv stopAutoRefresh clearIntervalId at *
    cases hri : st.refreshInterval with
    | none => simp_all
    | some id => simp_all
  cases op with
  | stop => exact hstop.1
  | start =>
    show timerInv (startAutoRefresh st)
    unfold timerInv startAutoRefresh setIntervalFresh
    have h1 := hstop.1
    have h2 := hstop.2
    unfold timerInv at h1
    rw [h2] at h1
    simp [h1]

/-- Running any call sequence from a `timerInv` state keeps `timerInv`. -/
theorem timerInv_foldl (ops : List TimerOp) (st : TimerState)
    (h : timerInv st) : timerInv (ops.foldl stepTimer st) := by
  induction ops generalizing st with
  | nil => exact h
  | cons op rest ih => exact ih _ (timerInv_step st op h)

/-- C9: after any sequence of `startAutoRefresh`/`stopAutoRefresh` calls
from page load, at most one interval timer is live; when
`refreshInterval` holds an id that id is the only live timer, and when it
is null no timer is live — repeated starts never accumulate timers. -/
theorem autoRefresh_at_most_one_timer (ops : List TimerOp) :
    (runTimerOps ops).live.length ≤ 1 ∧
    (∀ id, (runTimerOps ops).refreshInterval = some id →
        (runTimerOps ops).live = [id]) ∧
    ((runTimerOps ops).refreshInterval = none → (runTimerOps ops).live = []) := by
  have h : timerInv (runTimerOps ops) :=
    timerInv_foldl ops initialTimerState rfl
  unfold timerInv at h
  refine ⟨?_, ?_, ?_⟩
  · rw [h]
    cases (runTimerOps ops).refreshInterval <;> simp
  · intro id hid
    rw [h, hid]
    rfl
  · intro hnone
    rw [h, hnone]
    rfl

/-- Witness for C9: two consecutive starts leave a single live timer. -/
theorem autoRefresh_at_most_one_timer_witness :
    (runTimerOps [.start, .start]).live.length ≤ 1 :=
  (autoRefresh_at_most_one_timer [.start, .start]).1

/-- The claim's characterisation of acceptance, stated independently of
`validateUsername`'s regex test: after trimming whitespace and removing
the first `'@'`, the result is non-empty, at most 30 characters, and made
only of ASCII letters, digits, underscores and dots. -/
def usernameSpecAccept (username : String) : Prop :=
  let clean := removeFirstAtSign (jsTrim username).toList
  clean ≠ [] ∧ clean.length ≤ 30 ∧
    ∀ c ∈ clean,
      ('a' ≤ c ∧ c ≤ 'z') ∨ ('A' ≤ c ∧ c ≤ 'Z') ∨
        ('0' ≤ c ∧ c ≤ '9') ∨ c = '_' ∨ c = '.'

/-- C10: `validateUsername` accepts exactly the strings of the claim's
characterisation, and rejects (returns `false` on) everything else; as a
Lean function it is total by construction. -/
theorem validateUsername_accepts_iff (u : String) :
    validateUsername u = true ↔ usernameSpecAccept u := by
  unfold validateUsername usernameSpecAccept
  simp only [Bool.and_eq_true, List.all_eq_true, decide_eq_true_eq,
    usernameChar, Bool.or_eq_true, beq_iff_eq, ← List.length_pos]
  constructor
  · rintro ⟨⟨⟨hall, hpos⟩, _⟩, hle⟩
    refine ⟨hpos, hle, fun c hc => ?_⟩
    have := hall c hc
    tauto
  · rintro ⟨hpos, hle, hall⟩
    refine ⟨⟨⟨fun c hc => ?_, hpos⟩, hpos⟩, hle⟩
    have := hall c hc
    tauto

/-- Witness for C10: the concrete input `' @user.name '` is accepted, so
by the equivalence it satisfies the characterisation. -/
theorem validateUsername_accepts_iff_witness :
    usernameSpecAccept " @user.name " :=
  (validateUsername_accepts_iff " @user.name ").mp (by rfl)
